import Mathlib

/-
Verification of the x86-64 architecture support layer
(src/kernel/arch/amd64/sys_x86.c) against its specification.

The C functions are shallowly embedded as Lean definitions.  Machine
integers (uint32_t, uint64_t, size_t) are modelled as `Nat`; `int` level
arguments as `Int`; `ssize_t` results as `Int` with the size_t → ssize_t
conversion made explicit.  The per-CPU register file (CR0 and the MSR
array) is an explicit state record, and functions that touch hardware are
modelled as state transformers; where a claim is about which hardware
operations are issued, the function also returns the list of operations
it performed.
-/

namespace SysX86

/-! ## Constants from sys_x86.c -/

/-- Page table entry flag X86_MMU_PG_P (Present). -/
def X86_MMU_PG_P : Nat := 0x001

/-- Page table entry flag X86_MMU_PG_RW (Read/Write). -/
def X86_MMU_PG_RW : Nat := 0x002

/-- Page table entry flag X86_MMU_PG_U (User). -/
def X86_MMU_PG_U : Nat := 0x004

/-- Page table entry flag X86_MMU_PG_PS (Page Size). -/
def X86_MMU_PG_PS : Nat := 0x080

/-- MSR index X86_MSR_IA32_PAT. -/
def X86_MSR_IA32_PAT : Nat := 0x277

/-- Default PAT value: write-back caching for all entries. -/
def X86_PAT_DEFAULT_VALUE : Nat := 0x0007010600070106

/-! ## Pure predicates and translators, transcribed from the C source -/

/-- `sys_x86_is_vaddr_canonical` (sys_x86.c:108): bits [63:48] must be all
0 or all 1; the source computes `vaddr >> 48` and compares with 0 and
0xFFFF. -/
def sys_x86_is_vaddr_canonical (vaddr : Nat) : Bool :=
  let high_bits := vaddr >>> 48
  high_bits == 0 || high_bits == 0xFFFF

/-- `sys_x86_mmu_check_paddr` (sys_x86.c:115): paddr < 2^52. -/
def sys_x86_mmu_check_paddr (paddr : Nat) : Bool :=
  paddr < 2 ^ 52

/-- `sys_x86_page_table_mmu_terminal_flags` (sys_x86.c:466): builds the
architectural PTE flags from the portable flags; the `level` argument is
cast to void in the source. -/
def sys_x86_page_table_mmu_terminal_flags (level : Int) (flags : Nat) : Nat :=
  let pte_flags : Nat := 0
  let pte_flags := if flags &&& 0x1 ≠ 0 then pte_flags ||| X86_MMU_PG_P else pte_flags
  let pte_flags := if flags &&& 0x2 ≠ 0 then pte_flags ||| X86_MMU_PG_RW else pte_flags
  let pte_flags := if flags &&& 0x4 ≠ 0 then pte_flags ||| X86_MMU_PG_U else pte_flags
  pte_flags

/-- `sys_x86_page_table_mmu_split_flags` (sys_x86.c:493): `flags & ~X86_MMU_PG_PS`
on a uint64_t, i.e. an and with the 64-bit complement of 0x080. -/
def sys_x86_page_table_mmu_split_flags (level : Int) (flags : Nat) : Nat :=
  flags &&& 0xFFFFFFFFFFFFFF7F

/-- `sys_x86_page_table_mmu_pt_flags_to_mmu_flags` (sys_x86.c:500): the
reverse decode of the host terminal encoding. -/
def sys_x86_page_table_mmu_pt_flags_to_mmu_flags (flags : Nat) (level : Int) : Nat :=
  let mmu_flags : Nat := 0
  let mmu_flags := if flags &&& X86_MMU_PG_P ≠ 0 then mmu_flags ||| 0x1 else mmu_flags
  let mmu_flags := if flags &&& X86_MMU_PG_RW ≠ 0 then mmu_flags ||| 0x2 else mmu_flags
  let mmu_flags := if flags &&& X86_MMU_PG_U ≠ 0 then mmu_flags ||| 0x4 else mmu_flags
  mmu_flags

/-- `sys_x86_page_table_ept_intermediate_flags` (sys_x86.c:531): constant
0x7 (R | W | X). -/
def sys_x86_page_table_ept_intermediate_flags : Nat := 0x7

/-- `sys_x86_page_table_ept_terminal_flags` (sys_x86.c:535): starts from
the base 0x3 (R | W) and, when the portable bit 0x4 is set, ORs in 0x1
(the source's comment reads Execute, but the value ORed is literally 0x1). -/
def sys_x86_page_table_ept_terminal_flags (level : Int) (flags : Nat) : Nat :=
  let ept_flags : Nat := 0x3
  let ept_flags := if flags &&& 0x4 ≠ 0 then ept_flags ||| 0x1 else ept_flags
  ept_flags

/-- `sys_x86_page_table_ept_split_flags` (sys_x86.c:544): returns `flags`
unchanged. -/
def sys_x86_page_table_ept_split_flags (level : Int) (flags : Nat) : Nat :=
  flags

/-- `sys_x86_page_table_ept_pt_flags_to_mmu_flags` (sys_x86.c:549): maps
EPT bits 0x1/0x2/0x4 to portable Read/Write/Execute. -/
def sys_x86_page_table_ept_pt_flags_to_mmu_flags (flags : Nat) (level : Int) : Nat :=
  let mmu_flags : Nat := 0
  let mmu_flags := if flags &&& 0x1 ≠ 0 then mmu_flags ||| 0x1 else mmu_flags
  let mmu_flags := if flags &&& 0x2 ≠ 0 then mmu_flags ||| 0x2 else mmu_flags
  let mmu_flags := if flags &&& 0x4 ≠ 0 then mmu_flags ||| 0x4 else mmu_flags
  mmu_flags

/-! ## Register state and stateful functions -/

/-- The modelled per-CPU register file: CR0 and the MSR array (indexed by
MSR number). -/
structure X86State where
  cr0 : Nat
  msr : Nat → Nat

/-- `wrmsr` (sys_x86.c:68): updates one MSR in the modelled state. -/
def wrmsr (index value : Nat) (s : X86State) : X86State :=
  { s with msr := fun i => if i = index then value else s.msr i }

/-- `rdmsr` (sys_x86.c:62): reads one MSR from the modelled state. -/
def rdmsr (index : Nat) (s : X86State) : Nat :=
  s.msr index

/-- `sys_x86_mmu_early_init` (sys_x86.c:302): writes the PAT MSR with the
default value, then reads CR0, ORs in bit 16 (WP) and writes it back. -/
def sys_x86_mmu_early_init (s : X86State) : X86State :=
  let s := wrmsr X86_MSR_IA32_PAT X86_PAT_DEFAULT_VALUE s
  let cr0 := s.cr0
  let cr0 := cr0 ||| (1 <<< 16)
  { s with cr0 := cr0 }

/-- One hardware operation issued by a stateful function, recorded so that
frame claims (no MSR access, no IPI) can be stated. -/
inductive HwOp where
  | msr_read (index : Nat)
  | msr_write (index value : Nat)
  | ipi (targets : Nat)
deriving DecidableEq, Repr

/-- `sys_x86_pat_sync` (sys_x86.c:655): if `targets == 1` it returns
immediately; otherwise it reads the PAT MSR (the read's value is then
discarded — the IPI broadcast is a TODO in the source).  The returned
list records the hardware operations issued. -/
def sys_x86_pat_sync (targets : Nat) (s : X86State) : X86State × List HwOp :=
  if targets == 1 then
    (s, [])
  else
    (s, [HwOp.msr_read X86_MSR_IA32_PAT])

/-! ## CPUID and extended register state -/

/-- `struct x86_cpuid_leaf` (sys_x86.c:219). -/
structure x86_cpuid_leaf where
  eax : Nat
  ebx : Nat
  ecx : Nat
  edx : Nat
deriving DecidableEq, Repr

/-- `sys_x86_get_cpuid_subleaf` (sys_x86.c:227): for leaf 0 it returns
false without executing cpuid (the `out` structure is returned unchanged);
otherwise it executes cpuid — modelled by the hardware oracle `cpuid`,
a function from (leaf, subleaf) to the four registers — stores the result
in `out` and returns true. -/
def sys_x86_get_cpuid_subleaf (cpuid : Nat → Nat → x86_cpuid_leaf)
    (leaf subleaf : Nat) (out : x86_cpuid_leaf) : Bool × x86_cpuid_leaf :=
  if leaf == 0 then
    (false, out)
  else
    (true, cpuid leaf subleaf)

/-- `sys_x86_extended_register_size` (sys_x86.c:190): executes cpuid leaf 1
(its ECX is `cpuid1_ecx` here); if ECX bit 26 (XSAVE) is clear, returns 512;
otherwise reads XCR0 via xgetbv (modelled by `xcr0`), starts at 512 and
adds 256 when XCR0 bit 2 (AVX) is set. -/
def sys_x86_extended_register_size (cpuid1_ecx xcr0 : Nat) : Nat :=
  if cpuid1_ecx &&& (1 <<< 26) = 0 then
    512
  else
    let size : Nat := 512
    let size := if xcr0 &&& (1 <<< 2) ≠ 0 then size + 256 else size
    size

/-! ## User copy -/

/-- The C conversion `(ssize_t)len` for `len : size_t`: the value reduced
mod 2^64, reinterpreted as a signed two's-complement 64-bit integer. -/
def ssize_t_of_size_t (len : Nat) : Int :=
  if len % 2 ^ 64 < 2 ^ 63 then ((len % 2 ^ 64 : Nat) : Int)
  else ((len % 2 ^ 64 : Nat) : Int) - 2 ^ 64

/-- `sys_x86_copy_to_or_from_user` (sys_x86.c:368): `fault_return` is cast
to void; the body is `memcpy(dst, src, len)` — modelled on a byte-addressed
memory `mem : Nat → Nat` — followed by `return (ssize_t)len`. -/
def sys_x86_copy_to_or_from_user (mem : Nat → Nat)
    (dst src len fault_return : Nat) : (Nat → Nat) × Int :=
  ((fun a => if dst ≤ a ∧ a < dst + len then mem (src + (a - dst)) else mem a),
   ssize_t_of_size_t len)

/-! ## Shared helper lemmas -/

/-- A portable flag set contained in {1,2,4} is a natural number below 8. -/
theorem lt_eight_of_and_seven {F : Nat} (hF : F &&& 0x7 = F) : F < 8 := by
  have h7 : F &&& 0x7 ≤ 0x7 := Nat.and_le_right
  omega

/-- Host round-trip on the eight portable flag sets, at level 0. -/
theorem mmu_round_trip_lt8 :
    ∀ F < 8, sys_x86_page_table_mmu_pt_flags_to_mmu_flags
      (sys_x86_page_table_mmu_terminal_flags 0 F) 0 = F := by decide

/-- Host split removes an added PS bit from a terminal encoding, on the
eight portable flag sets, at level 0. -/
theorem mmu_split_of_terminal_lt8 :
    ∀ F < 8, sys_x86_page_table_mmu_split_flags 0
      (sys_x86_page_table_mmu_terminal_flags 0 F ||| 0x080) =
      sys_x86_page_table_mmu_terminal_flags 0 F := by decide

/-- The EPT terminal encoder is constantly 0x3: the base 0x3 already
contains the bit ORed in for execute. -/
theorem ept_terminal_flags_eq_three (L : Int) (F : Nat) :
    sys_x86_page_table_ept_terminal_flags L F = 0x3 := by
  unfold sys_x86_page_table_ept_terminal_flags
  by_cases h : F &&& 0x4 ≠ 0 <;> simp [h]

/-- The EPT decoder maps the arch flags 0x3 to the portable flags 0x3 at
every level (the level argument is cast to void in the source). -/
theorem ept_decode_three (L : Int) :
    sys_x86_page_table_ept_pt_flags_to_mmu_flags 3 L = 3 := by
  have h : sys_x86_page_table_ept_pt_flags_to_mmu_flags 3 L =
      sys_x86_page_table_ept_pt_flags_to_mmu_flags 3 0 := rfl
  rw [h]
  decide

/-! ## Claim theorems -/

/-- C1: the spec's Scenario D asserts `ept_terminal(0, 0x4) = 0x7` and
`ept_terminal(0, 0x0) = 0x3`.  On the code the first input yields 0x3, not
0x7: the source ORs in 0x1 — already contained in the 0x3 base — for the
execute request, although its own EPT encoding (intermediate 0x7 = R|W|X,
decode bit 0x4 = Execute) places the execute bit at 0x4.  This theorem
evaluates the code at both inputs, exhibiting the divergence. -/
theorem c1_ept_terminal_scenario_d :
    sys_x86_page_table_ept_terminal_flags 0 0x4 = 0x3 ∧
    sys_x86_page_table_ept_terminal_flags 0 0x4 ≠ 0x7 ∧
    sys_x86_page_table_ept_terminal_flags 0 0x0 = 0x3 := by decide

/-- C2 counterexample: the claimed EPT round-trip
`decode(terminal(L, F), L) &&& 7 = F` fails at F = 0, L = 0: the left side
is 0x3. -/
theorem c2_counterexample :
    ¬ (sys_x86_page_table_ept_pt_flags_to_mmu_flags
        (sys_x86_page_table_ept_terminal_flags 0 0) 0 &&& 0x7 = 0) := by decide

/-- C2 amended: for every portable flag set F and all levels, masking
`decode(terminal(L, F), L')` to the recognized portable bits yields the
constant 0x3 (R|W) — the terminal encoder always emits exactly 0x3, so the
round-trip recovers F only when F = 0x3. -/
theorem c2_ept_round_trip_constant :
    ∀ (L L' : Int) (F : Nat),
      sys_x86_page_table_ept_pt_flags_to_mmu_flags
        (sys_x86_page_table_ept_terminal_flags L F) L' &&& 0x7 = 0x3 ∧
      sys_x86_page_table_ept_pt_flags_to_mmu_flags
        (sys_x86_page_table_ept_terminal_flags L F) L' = 0x3 := by
  intro L L' F
  rw [ept_terminal_flags_eq_three, ept_decode_three]
  exact ⟨by decide, rfl⟩

/-- C3 counterexample: for the EPT table, `split(L, terminal(L, F) | PS)`
does not equal `terminal(L, F)`: at L = 0, F = 0 the left side is 0x83 and
the right side 0x3, because the EPT split function is the identity. -/
theorem c3_counterexample :
    ¬ (sys_x86_page_table_ept_split_flags 0
        (sys_x86_page_table_ept_terminal_flags 0 0 ||| 0x080) =
       sys_x86_page_table_ept_terminal_flags 0 0) := by decide

/-- C3 amended: for every level pair and portable flag set F ⊆ {1,2,4},
the host MMU split removes exactly the added PS bit,
`mmu_split(L, mmu_terminal(L', F) | PS) = mmu_terminal(L', F)`; the EPT
split is the identity, so it preserves the PS annotation:
`ept_split(L, ept_terminal(L', F) | PS) = ept_terminal(L', F) | PS`. -/
theorem c3_split_flags_amended :
    ∀ (L L' : Int) (F : Nat), F &&& 0x7 = F →
      sys_x86_page_table_mmu_split_flags L
        (sys_x86_page_table_mmu_terminal_flags L' F ||| 0x080) =
        sys_x86_page_table_mmu_terminal_flags L' F ∧
      sys_x86_page_table_ept_split_flags L
        (sys_x86_page_table_ept_terminal_flags L' F ||| 0x080) =
        sys_x86_page_table_ept_terminal_flags L' F ||| 0x080 := by
  intro L L' F hF
  exact ⟨mmu_split_of_terminal_lt8 F (lt_eight_of_and_seven hF), rfl⟩

/-- C3 witness: the amended statement at L = 0, L' = 1, F = 5. -/
theorem c3_witness :
    sys_x86_page_table_mmu_split_flags 0
      (sys_x86_page_table_mmu_terminal_flags 1 5 ||| 0x080) =
      sys_x86_page_table_mmu_terminal_flags 1 5 :=
  (c3_split_flags_amended 0 1 5 (by decide)).1

/-- C4: host MMU round-trip: for every portable flag set F ⊆ {1,2,4} and
all levels, `mmu_decode(mmu_terminal(L, F), L') = F`; moreover neither
the terminal encoder nor the decoder depends on its level argument. -/
theorem c4_mmu_round_trip :
    ∀ (L L' L'' : Int) (F : Nat), F &&& 0x7 = F →
      sys_x86_page_table_mmu_pt_flags_to_mmu_flags
        (sys_x86_page_table_mmu_terminal_flags L F) L' = F ∧
      sys_x86_page_table_mmu_terminal_flags L F =
        sys_x86_page_table_mmu_terminal_flags L'' F ∧
      (∀ A : Nat, sys_x86_page_table_mmu_pt_flags_to_mmu_flags A L =
        sys_x86_page_table_mmu_pt_flags_to_mmu_flags A L'') := by
  intro L L' L'' F hF
  exact ⟨mmu_round_trip_lt8 F (lt_eight_of_and_seven hF), rfl, fun A => rfl⟩

/-- C4 witness: the round-trip at L = 0, L' = 1, L'' = 2, F = 5. -/
theorem c4_witness :
    sys_x86_page_table_mmu_pt_flags_to_mmu_flags
      (sys_x86_page_table_mmu_terminal_flags 0 5) 1 = 5 :=
  (c4_mmu_round_trip 0 1 2 5 (by decide)).1

/-- C5 counterexample: the claim asserts
`sys_x86_is_vaddr_canonical 0x0000800000000000 = false`, but the code
returns true there: 0x0000800000000000 is 2^47, so `v >>> 48 = 0` and the
code's bits-[63:48] test accepts it — consistently with the claim's own
iff-characterization, which makes the claim self-contradictory at this
input. -/
theorem c5_counterexample :
    ¬ (sys_x86_is_vaddr_canonical 0x0000800000000000 = false) := by decide

/-- C5 amended: for every 64-bit value v, `sys_x86_is_vaddr_canonical v`
is true iff `v >>> 48` is 0 or 0xFFFF; in particular it is true on
0x00007FFFFFFFFFFF, 0xFFFF800000000000 and also on 0x0000800000000000
(bit 47 set with zero high bits — accepted by the code's bits-[63:48]
test even though real x86-64 hardware rejects it), and false on
0x0001000000000000. -/
theorem c5_is_vaddr_canonical_iff :
    ∀ v : Nat, v < 2 ^ 64 →
      (sys_x86_is_vaddr_canonical v = true ↔
        (v >>> 48 = 0 ∨ v >>> 48 = 0xFFFF)) ∧
      sys_x86_is_vaddr_canonical 0x00007FFFFFFFFFFF = true ∧
      sys_x86_is_vaddr_canonical 0xFFFF800000000000 = true ∧
      sys_x86_is_vaddr_canonical 0x0000800000000000 = true ∧
      sys_x86_is_vaddr_canonical 0x0001000000000000 = false := by
  intro v hv
  refine ⟨?_, by decide, by decide, by decide, by decide⟩
  simp [sys_x86_is_vaddr_canonical]

/-- C5 witness: the characterization applied at v = 0x00007FFFFFFFFFFF. -/
theorem c5_witness :
    sys_x86_is_vaddr_canonical 0x00007FFFFFFFFFFF = true :=
  (c5_is_vaddr_canonical_iff 0x00007FFFFFFFFFFF (by norm_num)).2.1

/-- C6: for every starting register state, after `sys_x86_mmu_early_init`
the CR0 register has bit 16 (WP) set, the IA32_PAT MSR (0x277) holds
exactly 0x0007010600070106, and every CR0 bit other than bit 16 is
unchanged. -/
theorem c6_mmu_early_init :
    ∀ s : X86State,
      Nat.testBit (sys_x86_mmu_early_init s).cr0 16 = true ∧
      (sys_x86_mmu_early_init s).msr X86_MSR_IA32_PAT = X86_PAT_DEFAULT_VALUE ∧
      ∀ i : Nat, i ≠ 16 →
        Nat.testBit (sys_x86_mmu_early_init s).cr0 i = Nat.testBit s.cr0 i := by
  intro s
  refine ⟨?_, ?_, ?_⟩
  · show Nat.testBit (s.cr0 ||| 1 <<< 16) 16 = true
    rw [Nat.testBit_lor]
    have h16 : Nat.testBit (1 <<< 16) 16 = true := by decide
    rw [h16, Bool.or_true]
  · rfl
  · intro i hi
    show Nat.testBit (s.cr0 ||| 1 <<< 16) i = Nat.testBit s.cr0 i
    rw [Nat.testBit_lor]
    have h16 : Nat.testBit (1 <<< 16) i = false := by
      rw [show (1 <<< 16 : Nat) = 2 ^ 16 from by decide]
      exact Nat.testBit_two_pow_of_ne (Ne.symm hi)
    rw [h16, Bool.or_false]

/-- A concrete register state, used to instantiate the state-transformer
theorems. -/
def s0 : X86State := ⟨0, fun _ => 0⟩

/-- C6 witness: the frame part of `c6_mmu_early_init` applied at the
concrete state `s0` and bit 0. -/
theorem c6_witness :
    Nat.testBit (sys_x86_mmu_early_init s0).cr0 0 = Nat.testBit s0.cr0 0 :=
  (c6_mmu_early_init s0).2.2 0 (by decide)

/-- C7: for leaf 0 `sys_x86_get_cpuid_subleaf` returns false with the
output structure unchanged and its result does not depend on the cpuid
hardware oracle (the instruction is not executed); for every nonzero leaf
it returns true together with the oracle's four register values for the
given leaf and subleaf. -/
theorem c7_get_cpuid_subleaf :
    ∀ (hw hw' : Nat → Nat → x86_cpuid_leaf) (leaf subleaf : Nat)
      (out : x86_cpuid_leaf),
      (leaf = 0 →
        sys_x86_get_cpuid_subleaf hw leaf subleaf out = (false, out) ∧
        sys_x86_get_cpuid_subleaf hw leaf subleaf out =
          sys_x86_get_cpuid_subleaf hw' leaf subleaf out) ∧
      (leaf ≠ 0 →
        sys_x86_get_cpuid_subleaf hw leaf subleaf out =
          (true, hw leaf subleaf)) := by
  intro hw hw' leaf subleaf out
  constructor
  · rintro rfl
    exact ⟨rfl, rfl⟩
  · intro h
    simp [sys_x86_get_cpuid_subleaf, h]

/-- A concrete cpuid hardware oracle. -/
def hw0 : Nat → Nat → x86_cpuid_leaf := fun l s => ⟨l, s, l + s, 0⟩

/-- A concrete cpuid output structure. -/
def leaf_out0 : x86_cpuid_leaf := ⟨7, 8, 9, 10⟩

/-- C7 witness: both branches of `c7_get_cpuid_subleaf` at concrete
inputs. -/
theorem c7_witness :
    sys_x86_get_cpuid_subleaf hw0 0 2 leaf_out0 = (false, leaf_out0) ∧
    sys_x86_get_cpuid_subleaf hw0 1 2 leaf_out0 = (true, hw0 1 2) :=
  ⟨((c7_get_cpuid_subleaf hw0 hw0 0 2 leaf_out0).1 rfl).1,
   (c7_get_cpuid_subleaf hw0 hw0 1 2 leaf_out0).2 (by decide)⟩

/-- C8: `sys_x86_extended_register_size` returns 512 when CPUID leaf 1
reports ECX bit 26 (XSAVE) clear; otherwise it returns 512 + 256 exactly
when XCR0 bit 2 (AVX) is set and 512 otherwise; in particular with
XSAVE and AVX it returns 768 and without XSAVE it returns 512. -/
theorem c8_extended_register_size :
    ∀ cpuid1_ecx xcr0 : Nat,
      (cpuid1_ecx &&& (1 <<< 26) = 0 →
        sys_x86_extended_register_size cpuid1_ecx xcr0 = 512) ∧
      (cpuid1_ecx &&& (1 <<< 26) ≠ 0 →
        sys_x86_extended_register_size cpuid1_ecx xcr0 =
          if xcr0 &&& (1 <<< 2) ≠ 0 then 768 else 512) ∧
      sys_x86_extended_register_size (1 <<< 26) (1 <<< 2) = 768 ∧
      sys_x86_extended_register_size 0 0 = 512 := by
  intro cpuid1_ecx xcr0
  refine ⟨?_, ?_, by decide, by decide⟩
  · intro h
    show (if cpuid1_ecx &&& (1 <<< 26) = 0 then 512
      else if xcr0 &&& (1 <<< 2) ≠ 0 then 512 + 256 else 512) = 512
    rw [if_pos h]
  · intro h
    show (if cpuid1_ecx &&& (1 <<< 26) = 0 then 512
      else if xcr0 &&& (1 <<< 2) ≠ 0 then 512 + 256 else 512) =
      if xcr0 &&& (1 <<< 2) ≠ 0 then 768 else 512
    rw [if_neg h]

/-- C8 witness: `c8_extended_register_size` at a CPU with XSAVE and AVX,
discharging the nonzero-ECX-bit hypothesis there. -/
theorem c8_witness :
    sys_x86_extended_register_size (1 <<< 26) (1 <<< 2) =
      if (1 <<< 2 : Nat) &&& (1 <<< 2) ≠ 0 then 768 else 512 :=
  (c8_extended_register_size (1 <<< 26) (1 <<< 2)).2.1 (by decide)

/-- C9: `sys_x86_pat_sync` with targets = 1 leaves the whole modelled
register state unchanged and issues no hardware operation at all — no MSR
read, no MSR write, no IPI. -/
theorem c9_pat_sync_single_cpu :
    ∀ s : X86State, sys_x86_pat_sync 1 s = (s, []) := by
  intro s
  rfl

/-- C10 counterexample: the claim that the return value `(ssize_t)len` is
never negative fails at len = 2^63: the size_t → ssize_t conversion wraps
it to -2^63. -/
theorem c10_counterexample :
    (sys_x86_copy_to_or_from_user (fun _ => 0) 0 0 (2 ^ 63) 0).2 < 0 := by
  show ssize_t_of_size_t (2 ^ 63) < 0
  norm_num [ssize_t_of_size_t]

/-- C10 amended: `sys_x86_copy_to_or_from_user` always returns exactly
`(ssize_t)len` — which is nonnegative whenever len < 2^63 (for larger len
the conversion is negative) — and both the return value and the copied
bytes are independent of the `fault_return` argument. -/
theorem c10_copy_to_or_from_user_amended :
    ∀ (mem : Nat → Nat) (dst src len fr fr' : Nat),
      (sys_x86_copy_to_or_from_user mem dst src len fr).2 =
        ssize_t_of_size_t len ∧
      sys_x86_copy_to_or_from_user mem dst src len fr =
        sys_x86_copy_to_or_from_user mem dst src len fr' ∧
      (len < 2 ^ 63 →
        0 ≤ (sys_x86_copy_to_or_from_user mem dst src len fr).2) := by
  intro mem dst src len fr fr'
  refine ⟨rfl, rfl, fun h => ?_⟩
  show (0 : Int) ≤ ssize_t_of_size_t len
  unfold ssize_t_of_size_t
  rw [Nat.mod_eq_of_lt (lt_trans h (by norm_num))]
  rw [if_pos h]
  exact Int.ofNat_nonneg _

/-- C10 witness: the nonnegativity part of the amended statement at a
concrete copy of 5 bytes. -/
theorem c10_witness :
    0 ≤ (sys_x86_copy_to_or_from_user (fun _ => 0) 0 0 5 0).2 :=
  (c10_copy_to_or_from_user_amended (fun _ => 0) 0 0 5 0 0).2.2 (by norm_num)

end SysX86
